import Mathlib

/-!
Verification development for the AirGradient proxy monitor
(src/home/airgradientproxy/bin/monitor/monitor.py).

Modelling conventions.
Python floats are modelled as exact rationals; `datetime` values are
modelled by their POSIX timestamp as a rational number of seconds.
Python runtime numbers keep the int/float distinction, which matters to
the sanity checker (`isinstance(x, float)` is false on an int).
Rows written through sqlite are modelled as an in-memory list of rows;
the PRIMARY KEY (record_type, timestamp) declared in the schema is
modelled as a uniqueness check on insert, and `SELECT ... ORDER BY
timestamp` as an insertion sort on the filtered rows.  The INSERT of
`save_reading` interpolates every nullable field with `%r` and renders
an absent field from the Python string NULL, so the stored column is
the quoted TEXT value NULL, not SQL NULL, and a fetch returns that
string; this serialization is modelled explicitly (`serializeReading`),
and fetches return the serialized image of a Reading, never the Reading
itself.  The sqlite REAL-affinity coercion of integral values stored in
REAL columns is not modelled; Python equality treats the two
representations as equal, so no statement below depends on it.
-/

/-- A Python runtime number: either a float or an int.  `parse_response`
produces floats through `float(...)` for the sensor channels and stores
`boot`/`bootCount` untouched, so both kinds occur at runtime. -/
inductive PyNum where
  | float (q : ℚ)
  | int (n : ℤ)
deriving DecidableEq, Repr, Inhabited

/-- Numeric value of a Python number. -/
def PyNum.toQ : PyNum → ℚ
  | .float q => q
  | .int n => (n : ℚ)

/-- Python `+` on numbers: int + int stays int, a float operand makes the
result a float. -/
def PyNum.add : PyNum → PyNum → PyNum
  | .int a, .int b => .int (a + b)
  | a, b => .float (a.toQ + b.toQ)

/-- Python `x / c` with a float divisor: always a float. -/
def PyNum.divF (v : PyNum) (c : ℚ) : PyNum := .float (v.toQ / c)

/-- `a + b if a is not None and b is not None else None`, the per-channel
summation step of `compute_avg` (monitor.py lines 457-479). -/
def pyAddOpt : Option PyNum → Option PyNum → Option PyNum
  | some a, some b => some (a.add b)
  | _, _ => none

/-- Numeric value of an optional Python number (0 for absent; only used
under an all-present hypothesis). -/
def optQ : Option PyNum → ℚ
  | some v => v.toQ
  | none => 0

/-- Exceptions that the modelled code can raise.  The Python code has no
dedicated error classes for aggregation or archive-duplication failures;
the last two constructors are Modelled from the spec: the spec names
`EmptyAggregationError` and `DuplicateArchiveRecord`, neither of which
exists in monitor.py, and nothing in the model ever produces them. -/
inductive PyError where
  | keyError
  | valueError
  | indexError
  | typeMismatch
  | integrityError
  | emptyAggregationError
  | duplicateArchiveRecord
deriving DecidableEq, Repr

/-- The `Reading` dataclass (monitor.py lines 110-141).  `measurementTime`
is the timestamp in seconds; each sensor channel is an optional runtime
number; `boot`/`bootCount` are optional runtime numbers (ints when the
payload is well formed); the metadata fields are optional strings. -/
structure Reading where
  measurementTime : ℚ
  serialno        : Option String
  wifi            : Option PyNum
  pm01            : Option PyNum
  pm02            : Option PyNum
  pm10            : Option PyNum
  pm02Compensated : Option PyNum
  pm01Standard    : Option PyNum
  pm02Standard    : Option PyNum
  pm10Standard    : Option PyNum
  rco2            : Option PyNum
  pm003Count      : Option PyNum
  pm005Count      : Option PyNum
  pm01Count       : Option PyNum
  pm02Count       : Option PyNum
  pm50Count       : Option PyNum
  pm10Count       : Option PyNum
  atmp            : Option PyNum
  atmpCompensated : Option PyNum
  rhum            : Option PyNum
  rhumCompensated : Option PyNum
  tvocIndex       : Option PyNum
  tvocRaw         : Option PyNum
  noxIndex        : Option PyNum
  noxRaw          : Option PyNum
  boot            : Option PyNum
  bootCount       : Option PyNum
  ledMode         : Option String
  firmware        : Option String
  model           : Option String
deriving DecidableEq, Repr, Inhabited

/-- One iteration of the `for reading in readings[1:]` loop of
`Service.compute_avg` (monitor.py lines 446-479): the identity fields and
the timestamp are overwritten by the current element; every numeric
channel is summed with all-or-nothing `None` propagation. -/
def sumStep (acc r : Reading) : Reading :=
  { acc with
    measurementTime := r.measurementTime
    serialno        := r.serialno
    ledMode         := r.ledMode
    firmware        := r.firmware
    model           := r.model
    boot            := r.boot
    bootCount       := r.bootCount
    wifi            := pyAddOpt acc.wifi r.wifi
    pm01            := pyAddOpt acc.pm01 r.pm01
    pm02            := pyAddOpt acc.pm02 r.pm02
    pm10            := pyAddOpt acc.pm10 r.pm10
    pm02Compensated := pyAddOpt acc.pm02Compensated r.pm02Compensated
    pm01Standard    := pyAddOpt acc.pm01Standard r.pm01Standard
    pm02Standard    := pyAddOpt acc.pm02Standard r.pm02Standard
    pm10Standard    := pyAddOpt acc.pm10Standard r.pm10Standard
    rco2            := pyAddOpt acc.rco2 r.rco2
    pm003Count      := pyAddOpt acc.pm003Count r.pm003Count
    pm005Count      := pyAddOpt acc.pm005Count r.pm005Count
    pm01Count       := pyAddOpt acc.pm01Count r.pm01Count
    pm02Count       := pyAddOpt acc.pm02Count r.pm02Count
    pm50Count       := pyAddOpt acc.pm50Count r.pm50Count
    pm10Count       := pyAddOpt acc.pm10Count r.pm10Count
    atmp            := pyAddOpt acc.atmp r.atmp
    atmpCompensated := pyAddOpt acc.atmpCompensated r.atmpCompensated
    rhum            := pyAddOpt acc.rhum r.rhum
    rhumCompensated := pyAddOpt acc.rhumCompensated r.rhumCompensated
    tvocIndex       := pyAddOpt acc.tvocIndex r.tvocIndex
    tvocRaw         := pyAddOpt acc.tvocRaw r.tvocRaw
    noxIndex        := pyAddOpt acc.noxIndex r.noxIndex
    noxRaw          := pyAddOpt acc.noxRaw r.noxRaw }

/-- `x / count if x is not None else None`, one line of the division
phase of `compute_avg`. -/
def divFOpt (v : Option PyNum) (count : ℚ) : Option PyNum :=
  match v with
  | some x => some (x.divF count)
  | none => none

/-- The division phase of `Service.compute_avg` (monitor.py lines
482-509): each present channel of the summed reading is divided by the
float sample count; absent channels stay absent. -/
def divideAll (acc : Reading) (count : ℚ) : Reading :=
  { acc with
    wifi            := divFOpt acc.wifi count
    pm01            := divFOpt acc.pm01 count
    pm02            := divFOpt acc.pm02 count
    pm10            := divFOpt acc.pm10 count
    pm02Compensated := divFOpt acc.pm02Compensated count
    pm01Standard    := divFOpt acc.pm01Standard count
    pm02Standard    := divFOpt acc.pm02Standard count
    pm10Standard    := divFOpt acc.pm10Standard count
    rco2            := divFOpt acc.rco2 count
    pm003Count      := divFOpt acc.pm003Count count
    pm005Count      := divFOpt acc.pm005Count count
    pm01Count       := divFOpt acc.pm01Count count
    pm02Count       := divFOpt acc.pm02Count count
    pm50Count       := divFOpt acc.pm50Count count
    pm10Count       := divFOpt acc.pm10Count count
    atmp            := divFOpt acc.atmp count
    atmpCompensated := divFOpt acc.atmpCompensated count
    rhum            := divFOpt acc.rhum count
    rhumCompensated := divFOpt acc.rhumCompensated count
    tvocIndex       := divFOpt acc.tvocIndex count
    tvocRaw         := divFOpt acc.tvocRaw count
    noxIndex        := divFOpt acc.noxIndex count
    noxRaw          := divFOpt acc.noxRaw count }

/-- `Service.compute_avg` (monitor.py lines 441-511).  On an empty list
the first statement `copy.copy(readings[0])` raises `IndexError`; on a
non-empty list the elements after the first are folded with `sumStep` and
the result is divided by `float(len(readings))`. -/
def compute_avg (readings : List Reading) : Except PyError Reading :=
  match readings with
  | [] => .error .indexError
  | r0 :: rest => .ok (divideAll (rest.foldl sumStep r0) ((r0 :: rest).length : ℚ))

/-- The `RecordType` constants (monitor.py lines 149-152). -/
def RecordType.CURRENT : ℕ := 0

/-- Archive record type constant (monitor.py line 151). -/
def RecordType.ARCHIVE : ℕ := 1

/-- Two-minute (short window) record type constant (monitor.py line 152). -/
def RecordType.TWO_MINUTE : ℕ := 2

/-- A numeric column value as the INSERT of `Database.save_reading`
renders it (monitor.py lines 220-256).  Every field is interpolated
with `%r`, substituting the Python string NULL when the field is
absent; `%r` quotes that string, so the column receives the
four-character TEXT value NULL, not SQL NULL. -/
inductive NumCol where
  | num (v : PyNum)
  | nullText
deriving DecidableEq, Repr

/-- The `%r` rendering of an optional numeric field. -/
def serNum : Option PyNum → NumCol
  | some v => .num v
  | none => .nullText

/-- The `%r` rendering of an optional string field: an absent field is
stored as the TEXT value NULL, indistinguishable from a present string
of that spelling. -/
def serStr : Option String → String
  | some s => s
  | none => "NULL"

/-- The nullable columns of one stored row, exactly as the INSERT of
`save_reading` renders them: present values kept (the REAL-affinity
coercion of integral values is not modelled, see the header), absent
values stored as the TEXT value NULL. -/
structure SReading where
  serialno        : String
  wifi            : NumCol
  pm01            : NumCol
  pm02            : NumCol
  pm10            : NumCol
  pm02Compensated : NumCol
  pm01Standard    : NumCol
  pm02Standard    : NumCol
  pm10Standard    : NumCol
  rco2            : NumCol
  pm003Count      : NumCol
  pm005Count      : NumCol
  pm01Count       : NumCol
  pm02Count       : NumCol
  pm50Count       : NumCol
  pm10Count       : NumCol
  atmp            : NumCol
  atmpCompensated : NumCol
  rhum            : NumCol
  rhumCompensated : NumCol
  tvocIndex       : NumCol
  tvocRaw         : NumCol
  noxIndex        : NumCol
  noxRaw          : NumCol
  boot            : NumCol
  bootCount       : NumCol
  ledMode         : String
  firmware        : String
  model           : String
deriving DecidableEq, Repr

/-- The serialization performed by the INSERT of `save_reading`
(monitor.py lines 220-256). -/
def serializeReading (r : Reading) : SReading :=
  SReading.mk (serStr r.serialno)
    (serNum r.wifi) (serNum r.pm01) (serNum r.pm02) (serNum r.pm10) (serNum r.pm02Compensated) (serNum r.pm01Standard) (serNum r.pm02Standard) (serNum r.pm10Standard) (serNum r.rco2) (serNum r.pm003Count) (serNum r.pm005Count) (serNum r.pm01Count) (serNum r.pm02Count) (serNum r.pm50Count) (serNum r.pm10Count) (serNum r.atmp) (serNum r.atmpCompensated) (serNum r.rhum) (serNum r.rhumCompensated) (serNum r.tvocIndex) (serNum r.tvocRaw) (serNum r.noxIndex) (serNum r.noxRaw)
    (serNum r.boot) (serNum r.bootCount)
    (serStr r.ledMode) (serStr r.firmware) (serStr r.model)

/-- The object `Database.create_reading_from_row` (monitor.py lines
330-362) actually builds: a Reading-shaped record whose fields hold the
raw column values — for a field that was absent when saved, the TEXT
value NULL, not Python None — with `measurementTime` rebuilt from the
timestamp column.  The typed `Reading` of this embedding cannot hold a
string in a numeric field, so the fetched object gets its own type. -/
structure FetchedReading where
  measurementTime : ℚ
  cols : SReading
deriving DecidableEq, Repr

/-- One row of the sqlite `Reading` table: the key columns
(record_type, timestamp) plus the serialized reading columns.
`save_reading` stores `timestamp = r.measurementTime.timestamp()`. -/
structure Row where
  record_type : ℕ
  timestamp   : ℚ
  sreading    : SReading
deriving DecidableEq, Repr

/-- The database contents: the rows of the single `Reading` table. -/
abbrev DB : Type := List Row

/-- `Database.save_reading` (monitor.py lines 218-266): for CURRENT and
TWO_MINUTE record types all previous rows of that type are deleted
first; then the new row is inserted.  The insert enforces the PRIMARY
KEY (record_type, timestamp) of the schema (line 200): a duplicate key
surfaces as a sqlite `IntegrityError`. -/
def save_reading (record_type : ℕ) (r : Reading) (db : DB) : Except PyError DB :=
  let stamp : ℚ := r.measurementTime
  let db1 : DB := if record_type = RecordType.CURRENT
    then db.filter (fun row => !(row.record_type == RecordType.CURRENT)) else db
  let db2 : DB := if record_type = RecordType.TWO_MINUTE
    then db1.filter (fun row => !(row.record_type == RecordType.TWO_MINUTE)) else db1
  if db2.any (fun row => row.record_type == record_type && row.timestamp == stamp)
    then .error .integrityError
    else .ok (db2 ++ [⟨record_type, stamp, serializeReading r⟩])

/-- `Database.save_current_reading` (monitor.py lines 209-210). -/
def save_current_reading (r : Reading) (db : DB) : Except PyError DB :=
  save_reading RecordType.CURRENT r db

/-- `Database.save_two_minute_reading` (monitor.py lines 212-213). -/
def save_two_minute_reading (r : Reading) (db : DB) : Except PyError DB :=
  save_reading RecordType.TWO_MINUTE r db

/-- `Database.save_archive_reading` (monitor.py lines 215-216). -/
def save_archive_reading (r : Reading) (db : DB) : Except PyError DB :=
  save_reading RecordType.ARCHIVE r db

/-- A sequence of consecutive saves of the same record type. -/
def saveSeq (record_type : ℕ) (db : DB) (rs : List Reading) : Except PyError DB :=
  rs.foldlM (fun d r => save_reading record_type r d) db

/-- `Database.create_reading_from_row` (monitor.py lines 330-362): the
fetched object holds the raw column values, with `measurementTime`
taken from the timestamp column. -/
def create_reading_from_row (row : Row) : FetchedReading :=
  FetchedReading.mk row.timestamp row.sreading

/-- The `WHERE record_type = %d AND timestamp > %d [AND timestamp <= %d]`
filter of `Database.fetch_readings` (monitor.py lines 312-319). -/
def rowSelected (record_type : ℕ) (since_ts : ℤ) (max_ts : Option ℤ) (row : Row) : Bool :=
  row.record_type == record_type && decide ((since_ts : ℚ) < row.timestamp) &&
    (match max_ts with
     | some m => decide (row.timestamp ≤ (m : ℚ))
     | none => true)

/-- `Database.fetch_readings` (monitor.py lines 312-328): select rows of
the given type with timestamp strictly greater than `since_ts` and
optionally at most `max_ts`, order by timestamp ascending (record_type is
constant on the selection), optionally cap at `limit` rows, and rebuild
an object from each row. -/
def fetch_readings (record_type : ℕ) (since_ts : ℤ) (max_ts : Option ℤ)
    (limit : Option ℕ) (db : DB) : List FetchedReading :=
  let rows := db.filter (rowSelected record_type since_ts max_ts)
  let sorted := List.insertionSort (fun a b : Row => a.timestamp ≤ b.timestamp) rows
  let capped := match limit with
    | some n => sorted.take n
    | none => sorted
  capped.map create_reading_from_row

/-- `Database.fetch_current_readings` (monitor.py lines 268-269). -/
def fetch_current_readings (db : DB) : List FetchedReading :=
  fetch_readings RecordType.CURRENT 0 none none db

/-- `Database.fetch_two_minute_readings` (monitor.py lines 277-278). -/
def fetch_two_minute_readings (db : DB) : List FetchedReading :=
  fetch_readings RecordType.TWO_MINUTE 0 none none db

/-- `Database.fetch_archive_readings` (monitor.py lines 300-301). -/
def fetch_archive_readings (since_ts : ℤ) (max_ts : Option ℤ) (limit : Option ℕ)
    (db : DB) : List FetchedReading :=
  fetch_readings RecordType.ARCHIVE since_ts max_ts limit db

/-- Number of rows of a given record type in the database. -/
def countType (record_type : ℕ) (db : DB) : ℕ :=
  (db.filter (fun row => row.record_type == record_type)).length

/-- Python `int(...)` applied to a number: truncation toward zero. -/
def pyInt (q : ℚ) : ℤ := if 0 ≤ q then ⌊q⌋ else -⌊-q⌋

/-- The `Event` enumeration (monitor.py lines 46-48). -/
inductive Event where
  | POLL
  | ARCHIVE
deriving DecidableEq, Repr

/-- `Service.compute_next_event` (monitor.py lines 630-639): the next
poll instant is `int(now / P) * P + P`, the next archive instant is
`int(now / A) * A + A`; the event is ARCHIVE exactly when the two
coincide, and the wait is `next_poll - now + offset`. -/
def compute_next_event (now : ℚ) (pollfreq_secs arcint_secs : ℕ)
    (pollfreq_offset : ℚ) : Event × ℚ :=
  let next_poll_event : ℤ := pyInt (now / (pollfreq_secs : ℚ)) * pollfreq_secs + pollfreq_secs
  let next_arc_event : ℤ := pyInt (now / (arcint_secs : ℚ)) * arcint_secs + arcint_secs
  let event := if next_poll_event = next_arc_event then Event.ARCHIVE else Event.POLL
  (event, (next_poll_event : ℚ) - now + pollfreq_offset)

/-- The archive timestamp computed in `Service.do_loop` (monitor.py lines
722-725): `calendar.timegm((now + 5s).utctimetuple())` drops the
fractional seconds (floor, since datetimes carry a nonnegative
microsecond component), and the result is floor-divided by the archive
interval and multiplied back. -/
def archiveTs (now : ℚ) (arcint_secs : ℕ) : ℤ :=
  pyInt ((⌊now + 5⌋ : ℚ) / (arcint_secs : ℚ)) * arcint_secs

/-- The reading that an archive-boundary cycle of `Service.do_loop`
passes to `save_archive_reading` (monitor.py lines 711-725): none when
the long window is empty; otherwise the window average restamped onto
the archive grid. -/
def archiveCandidate (archive_readings : List Reading) (now : ℚ)
    (arcint_secs : ℕ) : Option Reading :=
  match compute_avg archive_readings with
  | .error _ => none
  | .ok avg => some { avg with measurementTime := ((archiveTs now arcint_secs : ℤ) : ℚ) }

/-- The state of `Service.do_loop` relevant to archiving: the in-memory
long window and the database.  (The short window drives the two-minute
branch, which no statement below needs.) -/
structure DoLoopState where
  archive_readings : List Reading
  db : DB
deriving DecidableEq, Repr

/-- The archive branch of `Service.do_loop` (monitor.py lines 710-735):
on an empty long window nothing happens; otherwise the grid-stamped
average is saved as an ARCHIVE row and the window is cleared only after
the save succeeded; a save failure is logged and leaves both the window
and the database unchanged. -/
def archiveStep (s : DoLoopState) (now : ℚ) (arcint_secs : ℕ) : DoLoopState :=
  match archiveCandidate s.archive_readings now arcint_secs with
  | none => s
  | some c =>
    match save_reading RecordType.ARCHIVE c s.db with
    | .ok db2 => { archive_readings := [], db := db2 }
    | .error _ => s

/-- One `isinstance(x, float)` check of `Service.is_sane`: a present int
in a float channel fails with the reason string of the source (the
offending value rendered by `%f`/`%s` is elided from the modelled
string). -/
def checkFloat (name : String) (v : Option PyNum) : Option (Bool × String) :=
  match v with
  | some (.int _) => some (false, name ++ " not instance of float")
  | _ => none

/-- One `isinstance(x, int)` check of `Service.is_sane` for the boot
counters: a present float fails. -/
def checkInt (name : String) (v : Option PyNum) : Option (Bool × String) :=
  match v with
  | some (.float _) => some (false, name ++ " not instance of int")
  | _ => none

/-- First failing check, mirroring the early returns of `is_sane`. -/
def firstFail (a b : Option (Bool × String)) : Option (Bool × String) :=
  match a with
  | some res => some res
  | none => b

/-- The field-type checks of `Service.is_sane` (monitor.py lines
569-626) in source order, first failing check wins.  The checks on
`measurementTime` (datetime), `serialno`, `ledMode`, `firmware` and
`model` (str) always pass in this embedding because the corresponding
Reading fields are typed; the int/float distinction on the numeric
fields is the one the runtime can actually violate. -/
def typeChecks (r : Reading) : Option (Bool × String) :=
  firstFail (checkFloat "wifi" r.wifi) (
  firstFail (checkFloat "pm01" r.pm01) (
  firstFail (checkFloat "pm02" r.pm02) (
  firstFail (checkFloat "pm10" r.pm10) (
  firstFail (checkFloat "pm02Compensated" r.pm02Compensated) (
  firstFail (checkFloat "pm01Standard" r.pm01Standard) (
  firstFail (checkFloat "pm02Standard" r.pm02Standard) (
  firstFail (checkFloat "pm10Standard" r.pm10Standard) (
  firstFail (checkFloat "rco2" r.rco2) (
  firstFail (checkFloat "pm003Count" r.pm003Count) (
  firstFail (checkFloat "pm005Count" r.pm005Count) (
  firstFail (checkFloat "pm01Count" r.pm01Count) (
  firstFail (checkFloat "pm02Count" r.pm02Count) (
  firstFail (checkFloat "pm50Count" r.pm50Count) (
  firstFail (checkFloat "pm10Count" r.pm10Count) (
  firstFail (checkFloat "atmp" r.atmp) (
  firstFail (checkFloat "atmpCompensated" r.atmpCompensated) (
  firstFail (checkFloat "rhum" r.rhum) (
  firstFail (checkFloat "rhumCompensated" r.rhumCompensated) (
  firstFail (checkFloat "tvocIndex" r.tvocIndex) (
  firstFail (checkFloat "tvocRaw" r.tvocRaw) (
  firstFail (checkFloat "noxIndex" r.noxIndex) (
  firstFail (checkFloat "noxRaw" r.noxRaw) (
  firstFail (checkInt "boot" r.boot) (
  checkInt "bootCount" r.bootCount))))))))))))))))))))))))

/-- `Service.is_sane` (monitor.py lines 561-628): reject when the reading
time differs from now by more than 20 seconds in either direction, then
run the per-field type checks in order; accept with an empty reason when
everything passes. -/
def is_sane (now : ℚ) (r : Reading) : Bool × String :=
  if 20 < |now - r.measurementTime| then
    (false, "measurementTime more than 20s off")
  else
    match typeChecks r with
    | some res => res
    | none => (true, "")

/-- A float channel value, as a Boolean predicate on the runtime number. -/
def isFloatB : PyNum → Bool
  | .float _ => true
  | .int _ => false

/-- An int value, as a Boolean predicate on the runtime number. -/
def isIntB : PyNum → Bool
  | .float _ => false
  | .int _ => true

/-- All present numeric fields of the reading carry their declared
runtime type: floats in the sensor channels, ints in the boot counters. -/
def wellTypedChans (r : Reading) : Bool :=
  (r.wifi.all isFloatB &&
  (r.pm01.all isFloatB &&
  (r.pm02.all isFloatB &&
  (r.pm10.all isFloatB &&
  (r.pm02Compensated.all isFloatB &&
  (r.pm01Standard.all isFloatB &&
  (r.pm02Standard.all isFloatB &&
  (r.pm10Standard.all isFloatB &&
  (r.rco2.all isFloatB &&
  (r.pm003Count.all isFloatB &&
  (r.pm005Count.all isFloatB &&
  (r.pm01Count.all isFloatB &&
  (r.pm02Count.all isFloatB &&
  (r.pm50Count.all isFloatB &&
  (r.pm10Count.all isFloatB &&
  (r.atmp.all isFloatB &&
  (r.atmpCompensated.all isFloatB &&
  (r.rhum.all isFloatB &&
  (r.rhumCompensated.all isFloatB &&
  (r.tvocIndex.all isFloatB &&
  (r.tvocRaw.all isFloatB &&
  (r.noxIndex.all isFloatB &&
  (r.noxRaw.all isFloatB &&
  (r.boot.all isIntB &&
  r.bootCount.all isIntB))))))))))))))))))))))))

/-- A JSON value in the sensor response body, as `response.json()`
yields it: null, a number (int or float literal), or a string. -/
inductive JVal where
  | null
  | jint (n : ℤ)
  | jfloat (q : ℚ)
  | jstr (s : String)
deriving DecidableEq, Repr

/-- Python `j[key]` on the decoded JSON object: a missing key raises
`KeyError`. -/
def lookupJ (payload : List (String × JVal)) (key : String) : Except PyError JVal :=
  match payload.lookup key with
  | some v => .ok v
  | none => .error .keyError

/-- `float(j[k]) if j[k] is not None else None` (monitor.py lines
404-426).  `float` of a JSON number is a float.  Python `float` of a
numeric string would also succeed; payloads carrying string-encoded
numbers are outside every statement below, and the model treats a
string here as the `ValueError` of a non-numeric string. -/
def jFloatOpt : JVal → Except PyError (Option PyNum)
  | .null => .ok none
  | .jint n => .ok (some (.float (n : ℚ)))
  | .jfloat q => .ok (some (.float q))
  | .jstr _ => .error .valueError

/-- `j['boot']` stored untouched (monitor.py lines 427-428): a JSON int
stays an int, a JSON float stays a float; the typed Reading of this
embedding cannot hold a string in a numeric field, which no statement
below exercises. -/
def jRawNum : JVal → Except PyError (Option PyNum)
  | .null => .ok none
  | .jint n => .ok (some (.int n))
  | .jfloat q => .ok (some (.float q))
  | .jstr _ => .error .typeMismatch

/-- `j['serialno']`, `j['ledMode']`, `j['firmware']`, `j['model']`
stored untouched (monitor.py lines 403, 429-431); the typed Reading
cannot hold a number in a string field, which no statement below
exercises. -/
def jRawStr : JVal → Except PyError (Option String)
  | .null => .ok none
  | .jstr s => .ok (some s)
  | _ => .error .typeMismatch

/-- `Service.parse_response` (monitor.py lines 395-434): every field is
read with `j[key]`, in the order of the `Reading(...)` constructor call,
so the first missing key raises `KeyError`; `measurementTime` is the
current time, not part of the payload. -/
def parse_response (payload : List (String × JVal)) (now : ℚ) : Except PyError Reading := do
  let serialno ← jRawStr (← lookupJ payload "serialno")
  let wifi ← jFloatOpt (← lookupJ payload "wifi")
  let pm01 ← jFloatOpt (← lookupJ payload "pm01")
  let pm02 ← jFloatOpt (← lookupJ payload "pm02")
  let pm10 ← jFloatOpt (← lookupJ payload "pm10")
  let pm02Compensated ← jFloatOpt (← lookupJ payload "pm02Compensated")
  let pm01Standard ← jFloatOpt (← lookupJ payload "pm01Standard")
  let pm02Standard ← jFloatOpt (← lookupJ payload "pm02Standard")
  let pm10Standard ← jFloatOpt (← lookupJ payload "pm10Standard")
  let rco2 ← jFloatOpt (← lookupJ payload "rco2")
  let pm003Count ← jFloatOpt (← lookupJ payload "pm003Count")
  let pm005Count ← jFloatOpt (← lookupJ payload "pm005Count")
  let pm01Count ← jFloatOpt (← lookupJ payload "pm01Count")
  let pm02Count ← jFloatOpt (← lookupJ payload "pm02Count")
  let pm50Count ← jFloatOpt (← lookupJ payload "pm50Count")
  let pm10Count ← jFloatOpt (← lookupJ payload "pm10Count")
  let atmp ← jFloatOpt (← lookupJ payload "atmp")
  let atmpCompensated ← jFloatOpt (← lookupJ payload "atmpCompensated")
  let rhum ← jFloatOpt (← lookupJ payload "rhum")
  let rhumCompensated ← jFloatOpt (← lookupJ payload "rhumCompensated")
  let tvocIndex ← jFloatOpt (← lookupJ payload "tvocIndex")
  let tvocRaw ← jFloatOpt (← lookupJ payload "tvocRaw")
  let noxIndex ← jFloatOpt (← lookupJ payload "noxIndex")
  let noxRaw ← jFloatOpt (← lookupJ payload "noxRaw")
  let boot ← jRawNum (← lookupJ payload "boot")
  let bootCount ← jRawNum (← lookupJ payload "bootCount")
  let ledMode ← jRawStr (← lookupJ payload "ledMode")
  let firmware ← jRawStr (← lookupJ payload "firmware")
  let model ← jRawStr (← lookupJ payload "model")
  return { measurementTime := now, serialno := serialno, wifi := wifi,
           pm01 := pm01, pm02 := pm02, pm10 := pm10,
           pm02Compensated := pm02Compensated, pm01Standard := pm01Standard,
           pm02Standard := pm02Standard, pm10Standard := pm10Standard,
           rco2 := rco2, pm003Count := pm003Count, pm005Count := pm005Count,
           pm01Count := pm01Count, pm02Count := pm02Count,
           pm50Count := pm50Count, pm10Count := pm10Count, atmp := atmp,
           atmpCompensated := atmpCompensated, rhum := rhum,
           rhumCompensated := rhumCompensated, tvocIndex := tvocIndex,
           tvocRaw := tvocRaw, noxIndex := noxIndex, noxRaw := noxRaw,
           boot := boot, bootCount := bootCount, ledMode := ledMode,
           firmware := firmware, model := model }

/-- The Open Air sample response reproduced in the source comments
(monitor.py lines 81-107): it has no `pm50Count`, no `pm10Count` and no
`ledMode` key. -/
def openAirPayload : List (String × JVal) :=
  [("pm01", .jint 0), ("pm02", .jint 0), ("pm10", .jint 0),
   ("pm01Standard", .jint 0), ("pm02Standard", .jint 0),
   ("pm10Standard", .jint 0), ("pm003Count", .jfloat (5717/100)),
   ("pm005Count", .jfloat (4817/100)), ("pm01Count", .jfloat (783/100)),
   ("pm02Count", .jfloat (67/100)), ("atmp", .jfloat (232/10)),
   ("atmpCompensated", .jfloat (2229/100)), ("rhum", .jfloat (4605/100)),
   ("rhumCompensated", .jfloat (6532/100)), ("pm02Compensated", .jint 0),
   ("rco2", .jfloat (59933/100)), ("tvocIndex", .jint 101),
   ("tvocRaw", .jfloat (3237883/100)), ("noxIndex", .jint 1),
   ("noxRaw", .jfloat (178005/10)), ("boot", .jint 3),
   ("bootCount", .jint 3), ("wifi", .jint (-73)),
   ("serialno", .jstr "000000000000"), ("firmware", .jstr "3.3.9"),
   ("model", .jstr "O-1PST")]

/-- Heap cell lookup for the aliasing model of `compute_avg`: the heap
is an array of Reading objects, references are indices. -/
def heapGet (heap : List Reading) (i : ℕ) : Reading := heap.getD i default

/-- `Service.compute_avg` with the object mutation made explicit
(monitor.py lines 441-511): `copy.copy(readings[0])` allocates a fresh
cell; the loop mutates only that cell, reading the list elements;
`copy.copy(summed_reading)` allocates a second fresh cell that receives
the divisions; the returned reference is the second fresh cell.  On an
empty reference list the source raises IndexError (see `compute_avg`);
the pair returned here for that case is never the subject of a
statement. -/
def computeAvgHeap (heap : List Reading) (ids : List ℕ) : List Reading × ℕ :=
  match ids with
  | [] => (heap, heap.length)
  | i0 :: rest =>
    let fresh := heap.length
    let h1 := heap ++ [heapGet heap i0]
    let h2 := rest.foldl
      (fun h i => h.set fresh (sumStep (heapGet h fresh) (heapGet h i))) h1
    let h3 := h2 ++ [divideAll (heapGet h2 fresh) ((ids.length : ℚ))]
    (h3, h2.length)

/-- A bare test reading: given timestamp, every optional field absent. -/
def mkBare (t : ℚ) : Reading :=
  Reading.mk t none none none none none none none none none none none none
    none none none none none none none none none none none none none none
    none none none

/-- A full test reading in the shape `parse_response` produces: float
channels, int boot counters, string metadata. -/
def tA : Reading :=
  Reading.mk 10 (some "000000000000")
    (some (.float (-71))) (some (.float 1)) (some (.float 2))
    (some (.float 3)) (some (.float 4)) (some (.float 5))
    (some (.float 6)) (some (.float 7)) (some (.float 500))
    (some (.float 100)) (some (.float 101)) (some (.float 102))
    (some (.float 103)) (some (.float 104)) (some (.float 105))
    (some (.float 21)) (some (.float 22)) (some (.float 60))
    (some (.float 61)) (some (.float 70)) (some (.float 71))
    (some (.float 1)) (some (.float 2))
    (some (.int 3)) (some (.int 3))
    (some "pm") (some "3.3.7") (some "I-9PSL")

/-- A second full test reading with different channel values and
identity fields. -/
def tB : Reading :=
  Reading.mk 25 (some "000000000001")
    (some (.float (-72))) (some (.float 2)) (some (.float 3))
    (some (.float 4)) (some (.float 5)) (some (.float 6))
    (some (.float 7)) (some (.float 8)) (some (.float 502))
    (some (.float 110)) (some (.float 111)) (some (.float 112))
    (some (.float 113)) (some (.float 114)) (some (.float 115))
    (some (.float 22)) (some (.float 23)) (some (.float 62))
    (some (.float 63)) (some (.float 72)) (some (.float 73))
    (some (.float 2)) (some (.float 3))
    (some (.int 4)) (some (.int 4))
    (some "co2") (some "3.3.9") (some "O-1PST")

/-- Per-channel averaging contract: when the channel is present in every
element the result is the arithmetic mean of the values; when it is
absent in any element the result is absent. -/
def chanAvgOk (g : Reading → Option PyNum) (rs : List Reading) (avg : Reading) : Prop :=
  ((∀ r ∈ rs, (g r).isSome) →
    g avg = some (.float ((rs.map (fun r => optQ (g r))).sum / (rs.length : ℚ)))) ∧
  ((∃ r ∈ rs, g r = none) → g avg = none)

/-- C1 contract of `compute_avg` on the non-empty list `r0 :: rest`:
success, identity fields from the last element, and the per-channel
mean/absence contract for all 23 numeric channels. -/
def C1Spec (r0 : Reading) (rest : List Reading) : Prop :=
  ∃ avg, compute_avg (r0 :: rest) = .ok avg ∧
    avg.serialno = (rest.getLastD r0).serialno ∧
    avg.ledMode = (rest.getLastD r0).ledMode ∧
    avg.firmware = (rest.getLastD r0).firmware ∧
    avg.model = (rest.getLastD r0).model ∧
    avg.boot = (rest.getLastD r0).boot ∧
    avg.bootCount = (rest.getLastD r0).bootCount ∧
    chanAvgOk (fun r => r.wifi) (r0 :: rest) avg ∧
    chanAvgOk (fun r => r.pm01) (r0 :: rest) avg ∧
    chanAvgOk (fun r => r.pm02) (r0 :: rest) avg ∧
    chanAvgOk (fun r => r.pm10) (r0 :: rest) avg ∧
    chanAvgOk (fun r => r.pm02Compensated) (r0 :: rest) avg ∧
    chanAvgOk (fun r => r.pm01Standard) (r0 :: rest) avg ∧
    chanAvgOk (fun r => r.pm02Standard) (r0 :: rest) avg ∧
    chanAvgOk (fun r => r.pm10Standard) (r0 :: rest) avg ∧
    chanAvgOk (fun r => r.rco2) (r0 :: rest) avg ∧
    chanAvgOk (fun r => r.pm003Count) (r0 :: rest) avg ∧
    chanAvgOk (fun r => r.pm005Count) (r0 :: rest) avg ∧
    chanAvgOk (fun r => r.pm01Count) (r0 :: rest) avg ∧
    chanAvgOk (fun r => r.pm02Count) (r0 :: rest) avg ∧
    chanAvgOk (fun r => r.pm50Count) (r0 :: rest) avg ∧
    chanAvgOk (fun r => r.pm10Count) (r0 :: rest) avg ∧
    chanAvgOk (fun r => r.atmp) (r0 :: rest) avg ∧
    chanAvgOk (fun r => r.atmpCompensated) (r0 :: rest) avg ∧
    chanAvgOk (fun r => r.rhum) (r0 :: rest) avg ∧
    chanAvgOk (fun r => r.rhumCompensated) (r0 :: rest) avg ∧
    chanAvgOk (fun r => r.tvocIndex) (r0 :: rest) avg ∧
    chanAvgOk (fun r => r.tvocRaw) (r0 :: rest) avg ∧
    chanAvgOk (fun r => r.noxIndex) (r0 :: rest) avg ∧
    chanAvgOk (fun r => r.noxRaw) (r0 :: rest) avg

/-- C2 contract (amended): any non-empty run of consecutive saves of the
CURRENT type succeeds and leaves exactly one CURRENT row, and a fetch
with a positive last timestamp (the fetch selects `timestamp > 0`)
returns exactly one object: the serialized image of the last saved
Reading, in which each absent optional field has become the TEXT value
NULL; likewise a run of TWO_MINUTE saves leaves exactly one TWO_MINUTE
row. -/
def C2Spec (db : DB) (rs : List Reading) (rlast : Reading) : Prop :=
  (∃ db2, saveSeq RecordType.CURRENT db (rs ++ [rlast]) = .ok db2 ∧
    countType RecordType.CURRENT db2 = 1 ∧
    (0 < rlast.measurementTime → fetch_current_readings db2 =
      [FetchedReading.mk rlast.measurementTime (serializeReading rlast)])) ∧
  (∃ db3, saveSeq RecordType.TWO_MINUTE db (rs ++ [rlast]) = .ok db3 ∧
    countType RecordType.TWO_MINUTE db3 = 1)

/-- C5 contract (amended): a second archive save with the same timestamp
raises the sqlite primary-key IntegrityError and the first row persists;
two archive saves with distinct positive timestamps into a store without
archive rows both persist and are fetched in ascending timestamp order
as the serialized images of the two Readings (absent optional fields
come back as the TEXT value NULL). -/
def C5Spec (db : DB) (r1 r2 : Reading) : Prop :=
  (r1.measurementTime = r2.measurementTime →
    ∀ db1, save_archive_reading r1 db = .ok db1 →
      save_archive_reading r2 db1 = .error .integrityError ∧
      Row.mk RecordType.ARCHIVE r1.measurementTime (serializeReading r1) ∈ db1) ∧
  ((∀ row ∈ db, row.record_type ≠ RecordType.ARCHIVE) →
    r1.measurementTime ≠ r2.measurementTime →
    0 < r1.measurementTime → 0 < r2.measurementTime →
    ∃ db1 db2, save_archive_reading r1 db = .ok db1 ∧
      save_archive_reading r2 db1 = .ok db2 ∧
      fetch_archive_readings 0 none none db2 =
        (if r1.measurementTime < r2.measurementTime
          then [FetchedReading.mk r1.measurementTime (serializeReading r1),
                FetchedReading.mk r2.measurementTime (serializeReading r2)]
          else [FetchedReading.mk r2.measurementTime (serializeReading r2),
                FetchedReading.mk r1.measurementTime (serializeReading r1)]))

/-- C8 contract of `is_sane`: a reading more than 20 seconds off now is
rejected with a non-empty reason; a reading within the bound whose
present numeric fields carry their declared runtime types is accepted
with an empty reason. -/
def C8Spec (now : ℚ) (r : Reading) : Prop :=
  (20 < |now - r.measurementTime| →
    (is_sane now r).1 = false ∧ (is_sane now r).2 ≠ "") ∧
  (|now - r.measurementTime| ≤ 20 → wellTypedChans r = true →
    is_sane now r = (true, ""))

/-- C9 contract of the archive branch: with a non-empty long window
whose grid-stamped average is `c`, a failing archive save leaves the
whole state (window and database) unchanged, and a successful one
clears the window and installs the new database. -/
def C9Spec (s : DoLoopState) (now : ℚ) (arcint_secs : ℕ) (c : Reading) : Prop :=
  (∀ e, save_reading RecordType.ARCHIVE c s.db = .error e →
    archiveStep s now arcint_secs = s) ∧
  (∀ db2, save_reading RecordType.ARCHIVE c s.db = .ok db2 →
    archiveStep s now arcint_secs = ⟨[], db2⟩)

/-- C10 contract of the heap model of `compute_avg`: every cell of the
input list is untouched, the returned reference is fresh (not one of the
inputs), and the fresh cell holds exactly the functional average. -/
def C10Spec (heap : List Reading) (ids : List ℕ) : Prop :=
  (∀ i, i < heap.length → heapGet (computeAvgHeap heap ids).1 i = heapGet heap i) ∧
  (computeAvgHeap heap ids).2 ∉ ids ∧
  (ids ≠ [] → compute_avg (ids.map (heapGet heap)) =
    .ok (heapGet (computeAvgHeap heap ids).1 (computeAvgHeap heap ids).2))

lemma PyNum.toQ_add (a b : PyNum) : (a.add b).toQ = a.toQ + b.toQ := by
  cases a <;> cases b <;> simp [PyNum.add, PyNum.toQ]

lemma foldl_channel (g : Reading → Option PyNum)
    (hsum : ∀ a r, g (sumStep a r) = pyAddOpt (g a) (g r)) :
    ∀ (l : List Reading) (a : Reading),
      g (l.foldl sumStep a) = List.foldl pyAddOpt (g a) (l.map g) := by
  intro l
  induction l with
  | nil => intro a; rfl
  | cons x xs ih =>
    intro a
    simp only [List.foldl_cons, List.map_cons, ih (sumStep a x), hsum]

lemma foldl_pyAddOpt_none (l : List (Option PyNum)) :
    List.foldl pyAddOpt none l = none := by
  induction l with
  | nil => rfl
  | cons x xs ih => simpa [pyAddOpt] using ih

lemma foldl_pyAddOpt_hit_none (l : List (Option PyNum)) (o : Option PyNum)
    (h : none ∈ l) : List.foldl pyAddOpt o l = none := by
  induction l generalizing o with
  | nil => cases h
  | cons x xs ih =>
    rcases List.mem_cons.mp h with h1 | h2
    · subst h1
      cases o <;> simp [pyAddOpt, foldl_pyAddOpt_none]
    · exact ih _ h2

lemma foldl_pyAddOpt_all_some (l : List (Option PyNum)) (v : PyNum)
    (h : ∀ o ∈ l, o.isSome) :
    ∃ w, List.foldl pyAddOpt (some v) l = some w ∧
      w.toQ = v.toQ + (l.map optQ).sum := by
  induction l generalizing v with
  | nil => exact ⟨v, rfl, by simp⟩
  | cons x xs ih =>
    obtain ⟨x0, rfl⟩ := Option.isSome_iff_exists.mp (h x (by simp))
    obtain ⟨w, hw, hwq⟩ := ih (v.add x0) (fun o ho => h o (by simp [ho]))
    refine ⟨w, by simpa [pyAddOpt] using hw, ?_⟩
    rw [hwq, PyNum.toQ_add]
    simp [optQ]
    ring

lemma chanAvgOk_of (g : Reading → Option PyNum)
    (hsum : ∀ a r, g (sumStep a r) = pyAddOpt (g a) (g r))
    (hdiv : ∀ a c, g (divideAll a c) = divFOpt (g a) c)
    (r0 : Reading) (rest : List Reading) :
    chanAvgOk g (r0 :: rest)
      (divideAll (rest.foldl sumStep r0) (((r0 :: rest).length : ℚ))) := by
  constructor
  · intro hall
    rw [hdiv, foldl_channel g hsum]
    obtain ⟨v0, hv0⟩ := Option.isSome_iff_exists.mp (hall r0 (by simp))
    rw [hv0]
    obtain ⟨w, hw, hwq⟩ := foldl_pyAddOpt_all_some (rest.map g) v0 (by
      intro o ho
      obtain ⟨r, hr, rfl⟩ := List.mem_map.mp ho
      exact hall r (by simp [hr]))
    rw [hw]
    have hsumq : (List.map (fun r => optQ (g r)) (r0 :: rest)).sum
        = v0.toQ + (List.map optQ (List.map g rest)).sum := by
      simp only [List.map_cons, List.sum_cons, List.map_map, hv0, optQ]
      rfl
    simp only [divFOpt, PyNum.divF, hwq, hsumq]
  · rintro ⟨r, hr, hnone⟩
    rw [hdiv, foldl_channel g hsum]
    rcases List.mem_cons.mp hr with h1 | h2
    · subst h1
      rw [hnone, foldl_pyAddOpt_none]
      rfl
    · rw [foldl_pyAddOpt_hit_none _ _ (List.mem_map.mpr ⟨r, h2, hnone⟩)]
      rfl

lemma idField_of {α : Type} (g : Reading → α)
    (hsum : ∀ a r, g (sumStep a r) = g r)
    (hdiv : ∀ a c, g (divideAll a c) = g a) :
    ∀ (rest : List Reading) (r0 : Reading) (c : ℚ),
      g (divideAll (rest.foldl sumStep r0) c) = g (rest.getLastD r0) := by
  intro rest
  induction rest with
  | nil => intro r0 c; simp [hdiv]
  | cons x xs ih =>
    intro r0 c
    simp only [List.foldl_cons]
    rw [ih (sumStep r0 x) c]
    cases xs with
    | nil => simp [List.getLastD, hsum]
    | cons y ys => simp only [List.getLastD_cons]

/-- C1: for every non-empty list of Readings, `compute_avg` succeeds and
returns a Reading whose identity fields (serialno, ledMode, firmware,
model, boot, bootCount) equal the last element's values and in which each
numeric channel is the arithmetic mean of the channel values when the
channel is present in every element, and absent when it is absent in any
element. -/
theorem compute_avg_mean_identity (r0 : Reading) (rest : List Reading) :
    C1Spec r0 rest := by
  refine ⟨divideAll (rest.foldl sumStep r0) (((r0 :: rest).length : ℚ)), rfl,
    idField_of (fun r => r.serialno) (fun a r => rfl) (fun a c => rfl) rest r0 _,
    idField_of (fun r => r.ledMode) (fun a r => rfl) (fun a c => rfl) rest r0 _,
    idField_of (fun r => r.firmware) (fun a r => rfl) (fun a c => rfl) rest r0 _,
    idField_of (fun r => r.model) (fun a r => rfl) (fun a c => rfl) rest r0 _,
    idField_of (fun r => r.boot) (fun a r => rfl) (fun a c => rfl) rest r0 _,
    idField_of (fun r => r.bootCount) (fun a r => rfl) (fun a c => rfl) rest r0 _,
    chanAvgOk_of (fun r => r.wifi) (fun a r => rfl) (fun a c => rfl) r0 rest,
    chanAvgOk_of (fun r => r.pm01) (fun a r => rfl) (fun a c => rfl) r0 rest,
    chanAvgOk_of (fun r => r.pm02) (fun a r => rfl) (fun a c => rfl) r0 rest,
    chanAvgOk_of (fun r => r.pm10) (fun a r => rfl) (fun a c => rfl) r0 rest,
    chanAvgOk_of (fun r => r.pm02Compensated) (fun a r => rfl) (fun a c => rfl) r0 rest,
    chanAvgOk_of (fun r => r.pm01Standard) (fun a r => rfl) (fun a c => rfl) r0 rest,
    chanAvgOk_of (fun r => r.pm02Standard) (fun a r => rfl) (fun a c => rfl) r0 rest,
    chanAvgOk_of (fun r => r.pm10Standard) (fun a r => rfl) (fun a c => rfl) r0 rest,
    chanAvgOk_of (fun r => r.rco2) (fun a r => rfl) (fun a c => rfl) r0 rest,
    chanAvgOk_of (fun r => r.pm003Count) (fun a r => rfl) (fun a c => rfl) r0 rest,
    chanAvgOk_of (fun r => r.pm005Count) (fun a r => rfl) (fun a c => rfl) r0 rest,
    chanAvgOk_of (fun r => r.pm01Count) (fun a r => rfl) (fun a c => rfl) r0 rest,
    chanAvgOk_of (fun r => r.pm02Count) (fun a r => rfl) (fun a c => rfl) r0 rest,
    chanAvgOk_of (fun r => r.pm50Count) (fun a r => rfl) (fun a c => rfl) r0 rest,
    chanAvgOk_of (fun r => r.pm10Count) (fun a r => rfl) (fun a c => rfl) r0 rest,
    chanAvgOk_of (fun r => r.atmp) (fun a r => rfl) (fun a c => rfl) r0 rest,
    chanAvgOk_of (fun r => r.atmpCompensated) (fun a r => rfl) (fun a c => rfl) r0 rest,
    chanAvgOk_of (fun r => r.rhum) (fun a r => rfl) (fun a c => rfl) r0 rest,
    chanAvgOk_of (fun r => r.rhumCompensated) (fun a r => rfl) (fun a c => rfl) r0 rest,
    chanAvgOk_of (fun r => r.tvocIndex) (fun a r => rfl) (fun a c => rfl) r0 rest,
    chanAvgOk_of (fun r => r.tvocRaw) (fun a r => rfl) (fun a c => rfl) r0 rest,
    chanAvgOk_of (fun r => r.noxIndex) (fun a r => rfl) (fun a c => rfl) r0 rest,
    chanAvgOk_of (fun r => r.noxRaw) (fun a r => rfl) (fun a c => rfl) r0 rest⟩

/-- C1 witness: the contract at the concrete two-element list. -/
theorem compute_avg_mean_identity_witness : C1Spec tA [tB] :=
  compute_avg_mean_identity tA [tB]

/-- C6 counterexample: on the empty list `compute_avg` fails with the
IndexError raised by `readings[0]`, not with a distinct
EmptyAggregationError (no such error class exists in the code). -/
theorem compute_avg_empty_cex :
    compute_avg ([] : List Reading) = .error PyError.indexError ∧
    PyError.indexError ≠ PyError.emptyAggregationError :=
  ⟨rfl, by decide⟩

/-- C6 amended: `compute_avg` applied to an empty list fails, by raising
the IndexError of the `readings[0]` access. -/
theorem compute_avg_empty_fails :
    compute_avg ([] : List Reading) = .error PyError.indexError := rfl

lemma pyInt_natCast_div (t n : ℕ) :
    pyInt ((t : ℚ) / (n : ℚ)) = ((t / n : ℕ) : ℤ) := by
  have h0 : (0:ℚ) ≤ (t : ℚ) / (n : ℚ) := by positivity
  unfold pyInt
  rw [if_pos h0, ← Int.natCast_floor_eq_floor h0, Nat.floor_div_nat, Nat.floor_natCast]

/-- C3 (amended): with poll 30 and archive 300, at a time divisible by
the poll interval `compute_next_event` classifies the event as ARCHIVE
exactly when the next poll instant `t + 30` lands on the archive grid;
in particular a time that is itself a multiple of 300 is classified as
POLL because its next poll instant is not a multiple of 300. -/
theorem compute_next_event_archive_iff (t : ℕ) (h : 30 ∣ t) :
    (compute_next_event (t : ℚ) 30 300 0).1 = Event.ARCHIVE ↔ 300 ∣ (t + 30) := by
  obtain ⟨k, rfl⟩ := h
  simp only [compute_next_event, pyInt_natCast_div]
  split_ifs with hc
  · constructor
    · intro _; omega
    · intro _; rfl
  · constructor
    · intro h2; exact absurd h2 (by decide)
    · intro hdvd; exact absurd (by omega) hc

/-- C3 witness: the amended classification at the concrete time 270,
which is divisible by 30 and whose next poll instant 300 is on the
archive grid. -/
theorem compute_next_event_archive_iff_witness :
    30 ∣ 270 ∧
      ((compute_next_event ((270 : ℕ) : ℚ) 30 300 0).1 = Event.ARCHIVE ↔
        300 ∣ (270 + 30)) :=
  ⟨by decide, compute_next_event_archive_iff 270 (by decide)⟩

/-- C3 counterexample: at wall-clock time 300 (exactly divisible by the
archive interval) the code classifies the event as POLL, not ARCHIVE;
the ARCHIVE classification happens one poll earlier, at time 270. -/
theorem compute_next_event_boundary_cex :
    (compute_next_event (300 : ℚ) 30 300 0).1 = Event.POLL ∧
    (compute_next_event (270 : ℚ) 30 300 0).1 = Event.ARCHIVE ∧
    Event.POLL ≠ Event.ARCHIVE := by
  refine ⟨?_, ?_, by decide⟩
  · norm_num [compute_next_event, pyInt]
  · norm_num [compute_next_event, pyInt]

lemma floor_rat_div_nat (x : ℚ) (A : ℕ) (hx : 0 ≤ x) :
    ⌊x / (A : ℚ)⌋ = ⌊x⌋ / (A : ℤ) := by
  have hq : (0:ℚ) ≤ x / (A : ℚ) := by positivity
  rw [← Int.natCast_floor_eq_floor hq, Nat.floor_div_nat,
    ← Int.natCast_floor_eq_floor hx]
  exact_mod_cast rfl

lemma archiveTs_eq (now : ℚ) (A : ℕ) (h0 : 0 ≤ now) :
    archiveTs now A = ⌊(now + 5) / (A : ℚ)⌋ * A := by
  have h5 : (0:ℚ) ≤ now + 5 := by linarith
  have hf0 : (0:ℚ) ≤ (⌊now + 5⌋ : ℚ) := by
    exact_mod_cast Int.floor_nonneg.mpr h5
  unfold archiveTs pyInt
  rw [if_pos (by positivity), floor_rat_div_nat _ _ hf0,
    floor_rat_div_nat _ _ h5, Int.floor_intCast]

/-- C4: on an archive-boundary cycle with a non-empty long window, the
reading handed to `save_archive_reading` is stamped with
`floor((now + 5) / arcint) * arcint`: a timestamp on the archive grid
(an exact multiple of the archive interval), not the raw average time. -/
theorem archive_timestamp_on_grid (rs : List Reading) (now : ℚ) (A : ℕ)
    (c : Reading) (h0 : 0 ≤ now)
    (hc : archiveCandidate rs now A = some c) :
    c.measurementTime = ((⌊(now + 5) / (A : ℚ)⌋ * A : ℤ) : ℚ) ∧
    (A : ℤ) ∣ ⌊(now + 5) / (A : ℚ)⌋ * A := by
  refine ⟨?_, dvd_mul_left _ _⟩
  unfold archiveCandidate at hc
  cases hcc : compute_avg rs with
  | error e => rw [hcc] at hc; cases hc
  | ok avg =>
    rw [hcc] at hc
    have hcm := congrArg (fun o => (o.getD default).measurementTime) hc
    simp only [Option.getD_some] at hcm
    rw [← hcm, archiveTs_eq now A h0]

lemma archiveCandidate_mkBare :
    archiveCandidate [mkBare 100] 0 300 = some (mkBare 0) := by
  norm_num [archiveCandidate, compute_avg, divideAll, divFOpt, mkBare,
    archiveTs, pyInt]

/-- C4 witness: the grid stamping at the concrete cycle time 0 with a
one-element long window. -/
theorem archive_timestamp_on_grid_witness :
    archiveCandidate [mkBare 100] 0 300 = some (mkBare 0) ∧
    (mkBare 0).measurementTime = ((⌊((0:ℚ) + 5) / ((300 : ℕ) : ℚ)⌋ * 300 : ℤ) : ℚ) ∧
    ((300 : ℕ) : ℤ) ∣ ⌊((0:ℚ) + 5) / ((300 : ℕ) : ℚ)⌋ * 300 := by
  have h := archive_timestamp_on_grid [mkBare 100] 0 300 (mkBare 0)
    (by norm_num) archiveCandidate_mkBare
  exact ⟨archiveCandidate_mkBare, h.1, h.2⟩

/-- C9: on an archive-boundary cycle with a non-empty long window, a
failing archive save leaves the in-memory long window (and the database)
unchanged, and the window is cleared exactly when the save succeeds. -/
theorem archive_window_on_save (s : DoLoopState) (now : ℚ) (A : ℕ)
    (c : Reading)
    (hc : archiveCandidate s.archive_readings now A = some c) :
    C9Spec s now A c := by
  constructor
  · intro e he
    simp only [archiveStep, hc, he]
  · intro db2 hdb
    simp only [archiveStep, hc, hdb]

/-- C9 witness: a concrete failing save (primary-key conflict with an
existing ARCHIVE row at the same grid timestamp) leaves the state
unchanged. -/
theorem archive_window_on_save_witness :
    save_reading RecordType.ARCHIVE (mkBare 0)
        [Row.mk RecordType.ARCHIVE 0 (serializeReading (mkBare 0))] =
      .error PyError.integrityError ∧
    archiveStep ⟨[mkBare 100],
        [Row.mk RecordType.ARCHIVE 0 (serializeReading (mkBare 0))]⟩ 0 300 =
      ⟨[mkBare 100], [Row.mk RecordType.ARCHIVE 0 (serializeReading (mkBare 0))]⟩ := by
  have hs : save_reading RecordType.ARCHIVE (mkBare 0)
      [Row.mk RecordType.ARCHIVE 0 (serializeReading (mkBare 0))] =
      .error PyError.integrityError := by
    simp [save_reading, mkBare, RecordType.ARCHIVE, RecordType.CURRENT,
      RecordType.TWO_MINUTE]
  exact ⟨hs, (archive_window_on_save ⟨[mkBare 100], _⟩ 0 300 (mkBare 0)
    archiveCandidate_mkBare).1 PyError.integrityError hs⟩

lemma any_filter_ne (db : DB) (rt : ℕ) (q : ℚ) :
    (db.filter (fun row => !(row.record_type == rt))).any
      (fun row => row.record_type == rt && row.timestamp == q) = false := by
  simp only [List.any_eq_false]
  intro row hrow
  have h2 := (List.mem_filter.mp hrow).2
  simp only [Bool.not_eq_true', beq_eq_false_iff_ne] at h2
  simp [h2]

lemma save_replace_eq (rt : ℕ)
    (hrt : rt = RecordType.CURRENT ∨ rt = RecordType.TWO_MINUTE)
    (r : Reading) (db : DB) :
    save_reading rt r db =
      .ok (db.filter (fun row => !(row.record_type == rt)) ++
        [⟨rt, r.measurementTime, serializeReading r⟩]) := by
  rcases hrt with rfl | rfl
  · simp [save_reading, RecordType.CURRENT, RecordType.TWO_MINUTE]
    intro x hx h1 h2
    exact absurd h2 h1
  · simp [save_reading, RecordType.CURRENT, RecordType.TWO_MINUTE]
    intro x hx h1 h2
    exact absurd h2 h1

lemma filter_replace_self (p : Row → Bool) (db : DB) (row : Row)
    (hrow : p row = false) :
    (db.filter p ++ [row]).filter p = db.filter p := by
  rw [List.filter_append, List.filter_filter]
  simp [hrow, Bool.and_self]

lemma saveSeq_replace (rt : ℕ)
    (hrt : rt = RecordType.CURRENT ∨ rt = RecordType.TWO_MINUTE) :
    ∀ (rs : List Reading) (db : DB) (rlast : Reading),
      saveSeq rt db (rs ++ [rlast]) =
        .ok (db.filter (fun row => !(row.record_type == rt)) ++
          [⟨rt, rlast.measurementTime, serializeReading rlast⟩]) := by
  intro rs
  induction rs with
  | nil =>
    intro db rlast
    simp [saveSeq, save_replace_eq rt hrt]
  | cons x xs ih =>
    intro db rlast
    have hx := save_replace_eq rt hrt x db
    have hfilter := filter_replace_self (fun row => !(row.record_type == rt)) db
      (Row.mk rt x.measurementTime (serializeReading x)) (by simp)
    calc saveSeq rt db ((x :: xs) ++ [rlast])
        = saveSeq rt (db.filter (fun row => !(row.record_type == rt)) ++
            [Row.mk rt x.measurementTime (serializeReading x)]) (xs ++ [rlast]) := by
          simp [saveSeq, hx]
          rfl
      _ = _ := by rw [ih, hfilter]

lemma filter_type_replace (rt : ℕ) (db : DB) (row : Row)
    (hrow : row.record_type = rt) :
    (db.filter (fun x => !(x.record_type == rt)) ++ [row]).filter
      (fun x => x.record_type == rt) = [row] := by
  rw [List.filter_append, List.filter_filter]
  simp [hrow]

lemma filter_selected_nil (rt : ℕ) (since_ts : ℤ) (max_ts : Option ℤ) (db : DB) :
    (db.filter (fun x => !(x.record_type == rt))).filter
      (rowSelected rt since_ts max_ts) = [] := by
  rw [List.filter_eq_nil_iff]
  intro row hrow
  have h2 := (List.mem_filter.mp hrow).2
  simp only [Bool.not_eq_true', beq_eq_false_iff_ne] at h2
  simp [rowSelected, h2]

/-- C2 (amended): after any non-empty run of consecutive
`save_current_reading` calls the store holds exactly one CURRENT row — 
each save deletes all rows of the type before inserting — and, provided
the last timestamp is positive (the fetch selects `timestamp > 0`, so a
reading at or before the epoch is stored but not returned),
`fetch_current_readings` returns exactly one object: the serialized
image of the last saved Reading, in which every absent optional field
has become the TEXT value NULL (the `%r` rendering of None), so the
Reading itself is recovered only up to that encoding; likewise a run of
`save_two_minute_reading` calls leaves exactly one TWO_MINUTE row. -/
theorem save_seq_single_row (db : DB) (rs : List Reading) (rlast : Reading) :
    C2Spec db rs rlast := by
  constructor
  · refine ⟨_, saveSeq_replace _ (Or.inl rfl) rs db rlast, ?_, ?_⟩
    · unfold countType
      rw [filter_type_replace RecordType.CURRENT db
        (Row.mk RecordType.CURRENT rlast.measurementTime (serializeReading rlast)) rfl]
      rfl
    · intro hpos
      unfold fetch_current_readings fetch_readings
      rw [List.filter_append, filter_selected_nil]
      have hsel : rowSelected RecordType.CURRENT 0 none
          ⟨RecordType.CURRENT, rlast.measurementTime, serializeReading rlast⟩ = true := by
        simp [rowSelected]
        exact_mod_cast hpos
      simp [hsel, List.insertionSort, create_reading_from_row]
  · refine ⟨_, saveSeq_replace _ (Or.inr rfl) rs db rlast, ?_⟩
    unfold countType
    rw [filter_type_replace RecordType.TWO_MINUTE db
      (Row.mk RecordType.TWO_MINUTE rlast.measurementTime (serializeReading rlast)) rfl]
    rfl

/-- C2 witness: the contract at a concrete store and a two-save run. -/
theorem save_seq_single_row_witness : C2Spec [] [tA] tB :=
  save_seq_single_row [] [tA] tB

/-- C2 counterexample, both failure modes of the claim.  A reading
stamped at the epoch (timestamp 0) is saved as the single CURRENT row,
yet `fetch_current_readings` returns nothing, because the fetch selects
`timestamp > 0`.  And for a reading with a positive timestamp the fetch
returns the serialized image, not the saved Reading: its absent
serialno has become the TEXT string NULL (the `%r` rendering of None in
`save_reading`), while the saved Reading had the field absent. -/
theorem save_current_epoch_cex :
    save_current_reading (mkBare 0) [] =
      .ok [Row.mk RecordType.CURRENT 0 (serializeReading (mkBare 0))] ∧
    fetch_current_readings
      [Row.mk RecordType.CURRENT 0 (serializeReading (mkBare 0))] = [] ∧
    save_current_reading (mkBare 100) [] =
      .ok [Row.mk RecordType.CURRENT 100 (serializeReading (mkBare 100))] ∧
    fetch_current_readings
        [Row.mk RecordType.CURRENT 100 (serializeReading (mkBare 100))] =
      [FetchedReading.mk 100 (serializeReading (mkBare 100))] ∧
    (serializeReading (mkBare 100)).serialno = "NULL" ∧
    (mkBare 100).serialno = none := by
  refine ⟨?_, ?_, ?_, ?_, rfl, rfl⟩
  · simp [save_current_reading, save_reading, mkBare, RecordType.CURRENT,
      RecordType.TWO_MINUTE]
  · simp [fetch_current_readings, fetch_readings, rowSelected, mkBare,
      RecordType.CURRENT]
  · simp [save_current_reading, save_reading, mkBare, RecordType.CURRENT,
      RecordType.TWO_MINUTE]
  · simp [fetch_current_readings, fetch_readings, rowSelected, mkBare,
      RecordType.CURRENT, List.insertionSort, List.orderedInsert,
      create_reading_from_row]

lemma arc_ne_cur : ¬(RecordType.ARCHIVE = RecordType.CURRENT) := by decide

lemma arc_ne_two : ¬(RecordType.ARCHIVE = RecordType.TWO_MINUTE) := by decide

lemma save_archive_no_conflict (r : Reading) (db : DB)
    (h : db.any (fun row => row.record_type == RecordType.ARCHIVE &&
      row.timestamp == r.measurementTime) = false) :
    save_archive_reading r db =
      .ok (db ++ [Row.mk RecordType.ARCHIVE r.measurementTime (serializeReading r)]) := by
  simp only [save_archive_reading, save_reading]
  rw [if_neg arc_ne_cur, if_neg arc_ne_two, if_neg (by simp [h])]

lemma save_archive_conflict (r : Reading) (db : DB)
    (h : db.any (fun row => row.record_type == RecordType.ARCHIVE &&
      row.timestamp == r.measurementTime) = true) :
    save_archive_reading r db = .error .integrityError := by
  simp only [save_archive_reading, save_reading]
  rw [if_neg arc_ne_cur, if_neg arc_ne_two, if_pos h]

/-- C5 (amended): a second `save_archive_reading` with the same timestamp
fails on the (ARCHIVE, timestamp) primary key with the sqlite
IntegrityError (the code defines no distinct DuplicateArchiveRecord
class) and the first row persists, unchanged; with distinct positive
timestamps both rows persist and `fetch_archive_readings` returns them
in ascending timestamp order as the serialized images of the two
Readings, each absent optional field having become the TEXT value NULL
(the `%r` rendering of None in `save_reading`). -/
theorem save_archive_dup_and_order (db : DB) (r1 r2 : Reading) :
    C5Spec db r1 r2 := by
  constructor
  · intro heq db1 hsave
    cases hb : db.any (fun row => row.record_type == RecordType.ARCHIVE &&
        row.timestamp == r1.measurementTime) with
    | true =>
      rw [save_archive_conflict r1 db hb] at hsave
      simp at hsave
    | false =>
      rw [save_archive_no_conflict r1 db hb] at hsave
      have hdb1 := Except.ok.inj hsave
      subst hdb1
      constructor
      · apply save_archive_conflict
        simp [List.any_append, heq]
      · exact List.mem_append_right _ (by simp)
  · intro hno hne hpos1 hpos2
    have hany1 : db.any (fun row => row.record_type == RecordType.ARCHIVE &&
        row.timestamp == r1.measurementTime) = false := by
      simp only [List.any_eq_false]
      intro row hrow
      simp [hno row hrow]
    have h1 := save_archive_no_conflict r1 db hany1
    have hany2 : (db ++
        [Row.mk RecordType.ARCHIVE r1.measurementTime (serializeReading r1)]).any
        (fun row => row.record_type == RecordType.ARCHIVE &&
          row.timestamp == r2.measurementTime) = false := by
      simp only [List.any_append, Bool.or_eq_false_iff]
      constructor
      · simp only [List.any_eq_false]
        intro row hrow
        simp [hno row hrow]
      · simp [hne]
    have h2 := save_archive_no_conflict r2 _ hany2
    refine ⟨_, _, h1, h2, ?_⟩
    unfold fetch_archive_readings fetch_readings
    have hfdb : db.filter (rowSelected RecordType.ARCHIVE 0 none) = [] := by
      rw [List.filter_eq_nil_iff]
      intro row hrow
      simp [rowSelected, hno row hrow]
    have hsel1 : rowSelected RecordType.ARCHIVE 0 none
        (Row.mk RecordType.ARCHIVE r1.measurementTime (serializeReading r1)) = true := by
      simp only [rowSelected]
      simp
      exact_mod_cast hpos1
    have hsel2 : rowSelected RecordType.ARCHIVE 0 none
        (Row.mk RecordType.ARCHIVE r2.measurementTime (serializeReading r2)) = true := by
      simp only [rowSelected]
      simp
      exact_mod_cast hpos2
    rw [List.filter_append, List.filter_append, hfdb]
    simp only [List.filter_cons, List.filter_nil, hsel1, hsel2, if_pos,
      List.nil_append]
    by_cases hlt : r1.measurementTime < r2.measurementTime
    · rw [if_pos hlt]
      simp [List.insertionSort, List.orderedInsert, le_of_lt hlt,
        create_reading_from_row]
    · rw [if_neg hlt]
      have hnle : ¬(r1.measurementTime ≤ r2.measurementTime) := by
        intro hle
        exact hlt (lt_of_le_of_ne hle hne)
      simp [List.insertionSort, List.orderedInsert, hnle,
        create_reading_from_row]

/-- C5 witness: the amended contract at concrete readings, both for the
duplicate-timestamp pair and for a distinct-timestamp pair. -/
theorem save_archive_dup_and_order_witness :
    C5Spec [] (mkBare 100) (mkBare 100) ∧ C5Spec [] (mkBare 100) (mkBare 200) :=
  ⟨save_archive_dup_and_order [] (mkBare 100) (mkBare 100),
   save_archive_dup_and_order [] (mkBare 100) (mkBare 200)⟩

/-- C5 counterexample, all three failure modes of the claim.  The
duplicate save raises the generic sqlite IntegrityError, not a distinct
DuplicateArchiveRecord (no such class exists in the code).  With
distinct timestamps 0 and 5 both rows persist, yet the fetch returns
only the second row because the select filters `timestamp > 0`.  And
the returned object is the serialized image, not the saved Reading: its
absent wifi channel has become the TEXT value NULL (the `%r` rendering
of None in `save_reading`). -/
theorem save_archive_cex :
    save_archive_reading (mkBare 100)
        [Row.mk RecordType.ARCHIVE 100 (serializeReading (mkBare 100))] =
      .error PyError.integrityError ∧
    PyError.integrityError ≠ PyError.duplicateArchiveRecord ∧
    save_archive_reading (mkBare 5)
        [Row.mk RecordType.ARCHIVE 0 (serializeReading (mkBare 0))] =
      .ok [Row.mk RecordType.ARCHIVE 0 (serializeReading (mkBare 0)),
           Row.mk RecordType.ARCHIVE 5 (serializeReading (mkBare 5))] ∧
    fetch_archive_readings 0 none none
        [Row.mk RecordType.ARCHIVE 0 (serializeReading (mkBare 0)),
         Row.mk RecordType.ARCHIVE 5 (serializeReading (mkBare 5))] =
      [FetchedReading.mk 5 (serializeReading (mkBare 5))] ∧
    (serializeReading (mkBare 5)).wifi = NumCol.nullText ∧
    (mkBare 5).wifi = none := by
  refine ⟨?_, by decide, ?_, ?_, rfl, rfl⟩
  · apply save_archive_conflict
    simp [mkBare]
  · apply save_archive_no_conflict
    simp [mkBare]
  · simp [fetch_archive_readings, fetch_readings, rowSelected, mkBare,
      RecordType.ARCHIVE, List.insertionSort, List.orderedInsert,
      create_reading_from_row]

lemma checkFloat_none_of (name : String) (v : Option PyNum)
    (h : v.all isFloatB = true) : checkFloat name v = none := by
  cases v with
  | none => rfl
  | some x => cases x with
    | float q => rfl
    | int n => simp [Option.all_some, isFloatB] at h

lemma checkInt_none_of (name : String) (v : Option PyNum)
    (h : v.all isIntB = true) : checkInt name v = none := by
  cases v with
  | none => rfl
  | some x => cases x with
    | float q => simp [Option.all_some, isIntB] at h
    | int n => rfl

lemma firstFail_none (b : Option (Bool × String)) : firstFail none b = b := rfl

/-- C8: `is_sane` rejects, with a non-empty reason, every Reading whose
measurementTime is more than 20 seconds from now in either direction,
and accepts with an empty reason every Reading within that bound whose
present numeric fields carry their declared runtime types (float sensor
channels, int boot counters; the string metadata fields are typed by
construction in this embedding). -/
theorem is_sane_bounds (now : ℚ) (r : Reading) : C8Spec now r := by
  constructor
  · intro hoff
    unfold is_sane
    rw [if_pos hoff]
    exact ⟨rfl, by decide⟩
  · intro hin hty
    unfold is_sane
    rw [if_neg (not_lt.mpr hin)]
    unfold wellTypedChans at hty
    simp only [Bool.and_eq_true] at hty
    obtain ⟨h1, h2, h3, h4, h5, h6, h7, h8, h9, h10, h11, h12, h13, h14, h15, h16, h17, h18, h19, h20, h21, h22, h23, h24, h25⟩ := hty
    have htc : typeChecks r = none := by
      simp only [typeChecks, firstFail_none,
        checkFloat_none_of _ _ h1,
        checkFloat_none_of _ _ h2,
        checkFloat_none_of _ _ h3,
        checkFloat_none_of _ _ h4,
        checkFloat_none_of _ _ h5,
        checkFloat_none_of _ _ h6,
        checkFloat_none_of _ _ h7,
        checkFloat_none_of _ _ h8,
        checkFloat_none_of _ _ h9,
        checkFloat_none_of _ _ h10,
        checkFloat_none_of _ _ h11,
        checkFloat_none_of _ _ h12,
        checkFloat_none_of _ _ h13,
        checkFloat_none_of _ _ h14,
        checkFloat_none_of _ _ h15,
        checkFloat_none_of _ _ h16,
        checkFloat_none_of _ _ h17,
        checkFloat_none_of _ _ h18,
        checkFloat_none_of _ _ h19,
        checkFloat_none_of _ _ h20,
        checkFloat_none_of _ _ h21,
        checkFloat_none_of _ _ h22,
        checkFloat_none_of _ _ h23,
        checkInt_none_of _ _ h24,
        checkInt_none_of _ _ h25]
    rw [htc]

/-- C8 witness: the contract at a concrete in-bound, well-typed reading. -/
theorem is_sane_bounds_witness : C8Spec 0 tA := is_sane_bounds 0 tA

/-- C7: the Open Air payload documented in the source comments is a
well-formed JSON object containing `serialno`, yet `parse_response`
raises KeyError on it, because every channel is read with `j[key]` and
the payload omits the indoor-only `pm50Count` key entirely; an omitted
channel therefore aborts the whole decode instead of mapping to an
absent field. -/
theorem parse_response_missing_key :
    openAirPayload.lookup "serialno" = some (JVal.jstr "000000000000") ∧
    parse_response openAirPayload 0 = .error PyError.keyError := by
  constructor
  · rfl
  · rfl

lemma heapGet_append_left (heap l2 : List Reading) (i : ℕ)
    (h : i < heap.length) : heapGet (heap ++ l2) i = heapGet heap i := by
  unfold heapGet
  rw [List.getD_append _ _ _ _ h]

lemma heapGet_append_self (heap : List Reading) (x : Reading) :
    heapGet (heap ++ [x]) heap.length = x := by
  unfold heapGet
  rw [List.getD_append_right _ _ _ _ (le_refl _)]
  simp

lemma set_append_last (heap : List Reading) (x y : Reading) :
    (heap ++ [x]).set heap.length y = heap ++ [y] := by
  induction heap with
  | nil => rfl
  | cons a as ih => simp [List.set, ih]

lemma foldl_heap_sum (heap : List Reading) (ids : List ℕ)
    (hids : ∀ i ∈ ids, i < heap.length) :
    ∀ (w : Reading),
      ids.foldl (fun h i =>
          h.set heap.length (sumStep (heapGet h heap.length) (heapGet h i)))
        (heap ++ [w]) =
      heap ++ [ids.foldl (fun acc i => sumStep acc (heapGet heap i)) w] := by
  induction ids with
  | nil => intro w; rfl
  | cons i is ih =>
    intro w
    rw [List.foldl_cons]
    have hstep : (heap ++ [w]).set heap.length
        (sumStep (heapGet (heap ++ [w]) heap.length) (heapGet (heap ++ [w]) i))
        = heap ++ [sumStep w (heapGet heap i)] := by
      rw [heapGet_append_self,
        heapGet_append_left _ _ _ (hids i (by simp)), set_append_last]
    rw [hstep, ih (fun j hj => hids j (by simp [hj]))]
    rw [List.foldl_cons]

/-- C10: the heap model of `compute_avg` leaves every input cell
unchanged, returns a reference that is none of the inputs (the result is
a freshly constructed Reading), and the fresh cell holds exactly the
functional average of the referenced readings. -/
theorem compute_avg_heap_frame (heap : List Reading) (ids : List ℕ)
    (hids : ∀ i ∈ ids, i < heap.length) : C10Spec heap ids := by
  cases ids with
  | nil =>
    refine ⟨fun i hi => rfl, by simp [computeAvgHeap], fun h => absurd rfl h⟩
  | cons i0 rest =>
    have hi0 := hids i0 (by simp)
    have hrest : ∀ j ∈ rest, j < heap.length := fun j hj => hids j (by simp [hj])
    have hfold := foldl_heap_sum heap rest hrest (heapGet heap i0)
    refine ⟨?_, ?_, ?_⟩
    · intro i hi
      simp only [computeAvgHeap, hfold]
      rw [heapGet_append_left _ _ _ (by simp only [List.length_append]; omega),
        heapGet_append_left _ _ _ hi]
    · simp only [computeAvgHeap, hfold]
      intro hmem
      have hlt := hids _ hmem
      simp only [List.length_append, List.length_cons, List.length_nil] at hlt
      omega
    · intro _
      simp only [computeAvgHeap, hfold, List.map_cons, compute_avg]
      rw [heapGet_append_self, heapGet_append_self, List.foldl_map]
      simp

/-- C10 witness: the frame contract at a concrete two-element heap. -/
theorem compute_avg_heap_frame_witness :
    (∀ i ∈ ([0, 1] : List ℕ), i < ([tA, tB] : List Reading).length) ∧
    C10Spec [tA, tB] [0, 1] :=
  ⟨by decide, compute_avg_heap_frame [tA, tB] [0, 1] (by decide)⟩
